import Mathlib

/-
Shallow embedding of `astromech.py` (mcgachey/astromech): the device command
protocol layer.  Bytes are modelled as natural numbers (every byte stored by the
Python code is < 256 on the success path; Python's `bytearray.append` raises
rather than wraps, so no modular reduction occurs anywhere in this code).
Straight-line async methods are modelled as the traces of BLE-level events they
emit, in program order (each Python `await` completes before the next statement
runs).
-/

namespace Astromech

/-- Per-chassis tuning constants loaded in `Astromech.__init__` from the droid
YAML file: `config['wheels']['motor_ramp_time']`, `config['wheels']['speed']`,
`config['head']['motor_ramp_time']`, `config['head']['speed']`. -/
structure Tuning where
  wheel_ramp_time : Nat
  wheel_speed : Nat
  head_ramp_time : Nat
  head_speed : Nat
deriving DecidableEq

/-- The `Direction` enum.  In Python, `FORWARD` is an alias of `LEFT` (both
`0x00`) and `BACKWARD` an alias of `RIGHT` (both `0x80`); only `.value` is ever
consulted, so four constructors with the source's values are faithful. -/
inductive Direction where
  | LEFT
  | RIGHT
  | FORWARD
  | BACKWARD
deriving DecidableEq

/-- Enum values of `Direction` (`LEFT = 0x00`, `RIGHT = 0x80`, `FORWARD = 0x00`,
`BACKWARD = 0x80`). -/
def Direction.value : Direction → Nat
  | .LEFT => 0x00
  | .RIGHT => 0x80
  | .FORWARD => 0x00
  | .BACKWARD => 0x80

/-- The `Motor` enum (`LEFT = 0x00`, `RIGHT = 0x01`, `HEAD = 0x02`). -/
inductive Motor where
  | LEFT
  | RIGHT
  | HEAD
deriving DecidableEq

/-- Enum values of `Motor`. -/
def Motor.value : Motor → Nat
  | .LEFT => 0x00
  | .RIGHT => 0x01
  | .HEAD => 0x02

/-- Models `_int_to_bytes(i)`, i.e. Python `i.to_bytes(2, 'big')`: the two-byte
big-endian encoding.  Python raises `OverflowError` for `i >= 2^16`; on the
success path `i < 2^16` and the pair below is exactly the emitted bytes. -/
def int_to_bytes (i : Nat) : List Nat :=
  [i / 256, i % 256]

/-- Models `Astromech._command(command_id, command_data)`: the frame is
length prefix `0x1f + 4 + len`, sync byte `0x42`, the command id, the
payload-length-with-flag byte `0x40 + len`, then the payload itself. -/
def command (command_id : Nat) (command_data : List Nat) : List Nat :=
  (0x1f + 4 + command_data.length) :: 0x42 :: command_id ::
    (0x40 + command_data.length) :: command_data

/-- Models `Astromech._audio_command(cmd, param)`: payload `[0x44, 0x00, cmd]`
with `param` appended when present, framed with command id `0x0f`. -/
def audio_command (cmd : Nat) (param : Option Nat := none) : List Nat :=
  command 0x0f ([0x44, 0x00, cmd] ++ param.toList)

/-- Models `Astromech._motor_command`: resolves an omitted speed/ramp to the
chassis head defaults when the motor is `HEAD` and to the wheel defaults
otherwise, then frames `[direction.value | motor.value, speed]` followed by the
ramp time and the delay-after field, each as two big-endian bytes, under
command id `0x05`. -/
def motor_command (t : Tuning) (direction : Direction) (motor : Motor)
    (speed : Option Nat := none) (ramp_time : Option Nat := none)
    (delay_after : Nat := 0) : List Nat :=
  let speed_value := match speed with
    | some s => s
    | none => if motor = Motor.HEAD then t.head_speed else t.wheel_speed
  let ramp_value := match ramp_time with
    | some r => r
    | none => if motor = Motor.HEAD then t.head_ramp_time else t.wheel_ramp_time
  command 0x05 ([Nat.lor direction.value motor.value, speed_value]
    ++ int_to_bytes ramp_value ++ int_to_bytes delay_after)

/-- Models `R2_Unit.center_head`: payload
`[0x44, 0x01, speed, stop_at_center ? 0x00 : 0x01]` framed with command id
`0x0f`, the speed defaulting to the chassis head speed. -/
def center_head (t : Tuning) (speed : Option Nat := none)
    (stop_at_center : Bool := true) : List Nat :=
  let speed_value := match speed with
    | some s => s
    | none => t.head_speed
  command 0x0f [0x44, 0x01, speed_value, if stop_at_center then 0x00 else 0x01]

/-- BLE-level events a session method can emit, in program order.  `write` is a
`write_gatt_char` of a framed command, `sleep` an `asyncio.sleep` recorded in
milliseconds. -/
inductive Ev where
  | connect
  | subscribe
  | write (data : List Nat)
  | disconnect
  | sleep (ms : Nat)
deriving DecidableEq

/-- Trace of `Astromech.stop(delay_ms)`: sleep `delay_ms`, then a zero-speed
`FORWARD`/`LEFT` motor command and a zero-speed `FORWARD`/`RIGHT` motor
command (speed explicitly `0`, ramp and delay-after left to their defaults). -/
def stop (t : Tuning) (delay_ms : Nat := 0) : List Ev :=
  [Ev.sleep delay_ms,
   Ev.write (motor_command t Direction.FORWARD Motor.LEFT (some 0)),
   Ev.write (motor_command t Direction.FORWARD Motor.RIGHT (some 0))]

/-- Trace of `Astromech._move_wheels`: the left-motor command, the right-motor
command (each `await`ed in turn), then `stop(delay_ms=duration_ms)`. -/
def move_wheels (t : Tuning) (left_direction right_direction : Direction)
    (duration_ms : Nat) (left_speed right_speed : Option Nat)
    (ramp_time : Option Nat) : List Ev :=
  Ev.write (motor_command t left_direction Motor.LEFT left_speed ramp_time)
    :: Ev.write (motor_command t right_direction Motor.RIGHT right_speed ramp_time)
    :: stop t duration_ms

/-- Trace of `R2_Unit.move_forward`. -/
def move_forward (t : Tuning) (duration_ms : Nat) (speed : Option Nat := none)
    (ramp_time : Option Nat := none) : List Ev :=
  move_wheels t Direction.FORWARD Direction.FORWARD duration_ms speed speed ramp_time

/-- Trace of `R2_Unit.move_backward`. -/
def move_backward (t : Tuning) (duration_ms : Nat) (speed : Option Nat := none)
    (ramp_time : Option Nat := none) : List Ev :=
  move_wheels t Direction.BACKWARD Direction.BACKWARD duration_ms speed speed ramp_time

/-- Trace of `R2_Unit.spin_clockwise`. -/
def spin_clockwise (t : Tuning) (duration_ms : Nat) (speed : Option Nat := none)
    (ramp_time : Option Nat := none) : List Ev :=
  move_wheels t Direction.FORWARD Direction.BACKWARD duration_ms speed speed ramp_time

/-- Trace of `R2_Unit.spin_counter_clockwise`. -/
def spin_counter_clockwise (t : Tuning) (duration_ms : Nat) (speed : Option Nat := none)
    (ramp_time : Option Nat := none) : List Ev :=
  move_wheels t Direction.BACKWARD Direction.FORWARD duration_ms speed speed ramp_time

/-- Trace of `R2_Unit.turn_clockwise`. -/
def turn_clockwise (t : Tuning) (duration_ms : Nat) (speed : Option Nat := none)
    (ramp_time : Option Nat := none) : List Ev :=
  move_wheels t Direction.FORWARD Direction.FORWARD duration_ms speed (some 0) ramp_time

/-- Trace of `R2_Unit.turn_counter_clockwise`. -/
def turn_counter_clockwise (t : Tuning) (duration_ms : Nat) (speed : Option Nat := none)
    (ramp_time : Option Nat := none) : List Ev :=
  move_wheels t Direction.FORWARD Direction.FORWARD duration_ms (some 0) speed ramp_time

/-- Trace of `R2_Unit.drift_clockwise`.  The slower wheel gets
`int(float(speed)/2.0)`: for a natural `speed < 2^53` the float division by two
is exact and `int` truncates toward zero, so this equals `speed / 2` on `Nat`.
The Python default for `speed` is `0xa0`. -/
def drift_clockwise (t : Tuning) (duration_ms : Nat) (speed : Nat := 0xa0)
    (ramp_time : Option Nat := none) : List Ev :=
  move_wheels t Direction.FORWARD Direction.FORWARD duration_ms
    (some speed) (some (speed / 2)) ramp_time

/-- Trace of `R2_Unit.drift_counter_clockwise` (mirror image of
`drift_clockwise`). -/
def drift_counter_clockwise (t : Tuning) (duration_ms : Nat) (speed : Nat := 0xa0)
    (ramp_time : Option Nat := none) : List Ev :=
  move_wheels t Direction.FORWARD Direction.FORWARD duration_ms
    (some (speed / 2)) (some speed) ramp_time

/-- The fixed initialization command written twice in `Astromech.__aenter__`. -/
def handshake : List Nat := [0x22, 0x20, 0x01]

/-- Outcomes the BLE transport hands back during session startup: whether
`connect`, `start_notify` and the n-th `write_gatt_char` on this session
succeed.  A failing call raises, aborting the rest of the method. -/
structure Oracle where
  connectOk : Bool
  subscribeOk : Bool
  writeOk : Nat → Bool

/-- Outcome of `Astromech.__aenter__`: the events attempted (in order), whether
the BLE connection is live afterwards, and whether the method returned
normally (`ok = true` is the spec's `Ready` state). -/
structure EnterResult where
  trace : List Ev
  connected : Bool
  ok : Bool

/-- Models `Astromech.__aenter__` run against transport outcomes `o`: connect,
subscribe to notifications, then write the handshake twice, each step `await`ed
and a failure aborting the method by raising.  A write failure does not tear
down the established connection. -/
def aenter (o : Oracle) : EnterResult :=
  if !o.connectOk then ⟨[Ev.connect], false, false⟩
  else if !o.subscribeOk then ⟨[Ev.connect, Ev.subscribe], true, false⟩
  else if !(o.writeOk 0) then
    ⟨[Ev.connect, Ev.subscribe, Ev.write handshake], true, false⟩
  else if !(o.writeOk 1) then
    ⟨[Ev.connect, Ev.subscribe, Ev.write handshake, Ev.write handshake], true, false⟩
  else ⟨[Ev.connect, Ev.subscribe, Ev.write handshake, Ev.write handshake], true, true⟩

/-- Models `Astromech.__aexit__`: disconnect when the client is still
connected, otherwise do nothing. -/
def aexit (connected : Bool) : List Ev :=
  if connected then [Ev.disconnect] else []

/-- Trace of `async with Astromech(...)` under Python's context-manager
protocol: `__aexit__` runs only when `__aenter__` returned normally; when it
does, it runs whether the block's body finished normally or raised.  `body` is
the trace of the with-block, `connected_at_exit` is `client.is_connected` when
the block is left. -/
def sessionRun (o : Oracle) (body : List Ev) (connected_at_exit : Bool) : List Ev :=
  let r := aenter o
  if r.ok then r.trace ++ body ++ aexit connected_at_exit else r.trace

/-- The error `bleak` raises when writing on a client that is not connected. -/
inductive ExecError where
  | connectionError
deriving DecidableEq

/-- Models `Astromech._execute(command)`: the frame goes straight to
`write_gatt_char` with no readiness check of any kind; the transport raises a
connection error only when the client is not connected. -/
def execute (connected : Bool) (cmd : List Nat) : Except ExecError (List Ev) :=
  if connected then Except.ok [Ev.write cmd] else Except.error ExecError.connectionError

/-- A registered notification listener: an identifier paired with its
behaviour on a buffer (`Except.error e` models the callback raising). -/
abbrev Listener := Nat × (List Nat → Except Nat Unit)

/-- Models `Astromech._notification_callback`: call each registered listener on
the buffer, in list order, with no exception handling — the first listener that
raises stops the loop and the exception propagates.  Returns the identifiers
called, in order, and the propagated error if any. -/
def notification_callback : List Listener → List Nat → List Nat × Option Nat
  | [], _ => ([], none)
  | (i, f) :: rest, data =>
    match f data with
    | Except.error e => ([i], some e)
    | Except.ok _ =>
      let r := notification_callback rest data
      (i :: r.1, r.2)

/-- Models `Astromech.listen_for_notifications`: append the callback to the
listener list. -/
def listen_for_notifications (ls : List Listener) (c : Listener) : List Listener :=
  ls ++ [c]

/-- Concrete tuning used for witnesses (the wheel values are those of the
end-to-end scenario of the spec). -/
def demo_tuning : Tuning :=
  ⟨300, 0x60, 250, 0x40⟩

/-- A transport whose second session write (index 1) fails, everything else
succeeding. -/
def failing_oracle : Oracle :=
  ⟨true, true, fun n => n == 0⟩

end Astromech

namespace Astromech

/-- C1: for every commandId and payload, the frame built by `command` has
byte 0 equal to `0x1f + 4 + len(payload)`, byte 1 the sync byte `0x42`, byte 2
the commandId, byte 3 equal to `0x40 + len(payload)`, and bytes 4.. equal to
the payload; equivalently the first byte is the number of remaining bytes plus
the fixed overhead `0x20`. -/
theorem command_frame_layout (command_id : Nat) (payload : List Nat) :
    (command command_id payload).get? 0 = some (0x1f + 4 + payload.length)
    ∧ (command command_id payload).get? 1 = some 0x42
    ∧ (command command_id payload).get? 2 = some command_id
    ∧ (command command_id payload).get? 3 = some (0x40 + payload.length)
    ∧ (command command_id payload).drop 4 = payload
    ∧ 0x1f + 4 + payload.length
        = ((command command_id payload).length - 1) + 0x20 := by
  refine ⟨rfl, rfl, rfl, rfl, rfl, ?_⟩
  simp [command]
  omega

end Astromech

namespace Astromech

/-- C2: the motor command payload is `[direction.value | motor.value, speed]`
followed by the ramp time and the delay-after field each as two big-endian
bytes, with an omitted speed/ramp replaced by the chassis head defaults when
the motor is `HEAD` and by the wheel defaults otherwise, framed under command
id `0x05`; audio and head-center commands are framed under command id `0x0f`;
and the two-byte encoding really is big-endian (high byte first, both bytes
valid, decoding back to the value) for every sixteen-bit input. -/
theorem motor_command_layout (t : Tuning) (d : Direction) (m : Motor)
    (speed ramp_time : Option Nat) (delay_after : Nat) (cmd : Nat)
    (param : Option Nat) (stop_at_center : Bool) :
    motor_command t d m speed ramp_time delay_after
      = command 0x05
          ([Nat.lor d.value m.value,
            speed.getD (if m = Motor.HEAD then t.head_speed else t.wheel_speed)]
            ++ int_to_bytes
                (ramp_time.getD
                  (if m = Motor.HEAD then t.head_ramp_time else t.wheel_ramp_time))
            ++ int_to_bytes delay_after)
    ∧ (∀ n : Nat, n < 65536 →
        int_to_bytes n = [n / 256, n % 256]
        ∧ (int_to_bytes n).length = 2
        ∧ 256 * (n / 256) + n % 256 = n
        ∧ n / 256 < 256 ∧ n % 256 < 256)
    ∧ audio_command cmd param = command 0x0f ([0x44, 0x00, cmd] ++ param.toList)
    ∧ center_head t speed stop_at_center
        = command 0x0f [0x44, 0x01, speed.getD t.head_speed,
            if stop_at_center then 0x00 else 0x01] := by
  refine ⟨?_, ?_, rfl, ?_⟩
  · cases speed <;> cases ramp_time <;> rfl
  · intro n hn
    exact ⟨rfl, rfl, Nat.div_add_mod n 256, Nat.div_lt_of_lt_mul (by omega),
      Nat.mod_lt _ (by omega)⟩
  · cases speed <;> rfl

/-- Witness for `motor_command_layout` at a concrete chassis, motor command and
sixteen-bit value. -/
theorem motor_command_layout_witness :
    motor_command demo_tuning Direction.FORWARD Motor.LEFT (some 0x80) (some 500) 0
      = command 0x05
          ([Nat.lor Direction.FORWARD.value Motor.LEFT.value, 0x80]
            ++ int_to_bytes 500 ++ int_to_bytes 0)
    ∧ int_to_bytes 500 = [0x01, 0xf4] :=
  ⟨(motor_command_layout demo_tuning Direction.FORWARD Motor.LEFT
      (some 0x80) (some 500) 0 0x18 none true).1,
   ((motor_command_layout demo_tuning Direction.FORWARD Motor.LEFT
      (some 0x80) (some 500) 0 0x18 none true).2.1 500 (by decide)).1⟩

/-- C3 fails as stated: the frame for `FORWARD`/`LEFT`, speed `0x80`, ramp
`500`, delay `0` is not the spec's literal `1F 42 05 41 00 80 01 F4 00 00` —
the payload is six bytes long, so byte 0 is `0x1f + 4 + 6 = 0x29` and byte 3 is
`0x40 + 6 = 0x46`, not `0x1f` and `0x41`. -/
theorem motor_command_example_ne_literal :
    motor_command demo_tuning Direction.FORWARD Motor.LEFT (some 0x80) (some 500) 0
      ≠ [0x1f, 0x42, 0x05, 0x41, 0x00, 0x80, 0x01, 0xf4, 0x00, 0x00] := by
  decide

/-- C3 amended: for every chassis tuning, the framed motor command for
`FORWARD`/`LEFT`, speed `0x80`, ramp `500`, delay `0` is the byte sequence
`29 42 05 46 00 80 01 F4 00 00`, as the framing formula dictates. -/
theorem motor_command_example_bytes (t : Tuning) :
    motor_command t Direction.FORWARD Motor.LEFT (some 0x80) (some 500) 0
      = [0x29, 0x42, 0x05, 0x46, 0x00, 0x80, 0x01, 0xf4, 0x00, 0x00] := by
  simp [motor_command, command, int_to_bytes, Direction.value, Motor.value]
  decide

/-- C4: every wheel maneuver's trace is the left-motor command, the right-motor
command, a sleep of `duration_ms`, then always the same two stop frames — a
zero-speed `FORWARD`/`LEFT` command and a zero-speed `FORWARD`/`RIGHT` command
carrying the default wheel ramp and zero delay, whatever directions and speeds
the maneuver used. -/
theorem move_wheels_protocol (t : Tuning) (ld rd : Direction) (duration_ms : Nat)
    (ls rs : Option Nat) (ramp : Option Nat) :
    move_wheels t ld rd duration_ms ls rs ramp
      = [Ev.write (motor_command t ld Motor.LEFT ls ramp 0),
         Ev.write (motor_command t rd Motor.RIGHT rs ramp 0),
         Ev.sleep duration_ms,
         Ev.write (command 0x05
           ([0x00, 0x00] ++ int_to_bytes t.wheel_ramp_time ++ [0x00, 0x00])),
         Ev.write (command 0x05
           ([0x01, 0x00] ++ int_to_bytes t.wheel_ramp_time ++ [0x00, 0x00]))] := rfl

/-- C10: whatever ramp the caller passed for the maneuver's motion commands,
the two stop frames that close every wheel maneuver encode the chassis default
wheel ramp time and a zero delay-after field — the right-hand side does not
mention the caller's ramp at all. -/
theorem stop_frames_use_default_ramp (t : Tuning) (ld rd : Direction)
    (duration_ms : Nat) (ls rs : Option Nat) (caller_ramp : Nat) :
    (move_wheels t ld rd duration_ms ls rs (some caller_ramp)).drop 3
      = [Ev.write (command 0x05
           ([0x00, 0x00] ++ int_to_bytes t.wheel_ramp_time ++ int_to_bytes 0)),
         Ev.write (command 0x05
           ([0x01, 0x00] ++ int_to_bytes t.wheel_ramp_time ++ int_to_bytes 0))] := rfl

end Astromech

namespace Astromech

/-- C5: whenever session startup succeeds, its trace is exactly: connect, then
subscribe to the notification characteristic, then the initialization command
`[0x22, 0x20, 0x01]` written twice — and nothing else, so no other command is
issued before the handshake completes. -/
theorem aenter_handshake (o : Oracle) (h : (aenter o).ok = true) :
    (aenter o).trace
      = [Ev.connect, Ev.subscribe, Ev.write handshake, Ev.write handshake]
    ∧ handshake = [0x22, 0x20, 0x01] := by
  cases hc : o.connectOk <;> cases hs : o.subscribeOk
    <;> cases h0 : o.writeOk 0 <;> cases h1 : o.writeOk 1
    <;> simp [aenter, handshake, hc, hs, h0, h1] at h ⊢

/-- Witness for `aenter_handshake`: a transport on which every call succeeds. -/
theorem aenter_handshake_witness :
    (aenter ⟨true, true, fun _ => true⟩).trace
      = [Ev.connect, Ev.subscribe, Ev.write handshake, Ev.write handshake]
    ∧ handshake = [0x22, 0x20, 0x01] :=
  aenter_handshake ⟨true, true, fun _ => true⟩ rfl

/-- C6 counterexample: when the second handshake write fails, the session never
becomes ready — yet the connection is still live, and a command write attempted
in that state is sent to the device without any error, instead of failing with
an encoding or connection error.  (No readiness check exists in `_execute`, and
no `ProtocolEncodingError` exists anywhere in the code.) -/
theorem execute_not_ready_counterexample :
    (aenter failing_oracle).ok = false
    ∧ (aenter failing_oracle).connected = true
    ∧ execute (aenter failing_oracle).connected
        (motor_command demo_tuning Direction.FORWARD Motor.LEFT (some 0))
      = Except.ok
          [Ev.write (motor_command demo_tuning Direction.FORWARD Motor.LEFT (some 0))] :=
  ⟨rfl, rfl, rfl⟩

/-- C6 amended: a session whose second handshake write fails never reaches the
ready state; but command writes are not guarded by readiness — `_execute`
passes the frame straight to the transport, which raises a connection error
only when the client is not connected and otherwise sends the bytes to the
device. -/
theorem handshake_failure_never_ready (o : Oracle) (cmd : List Nat)
    (h : o.writeOk 1 = false) :
    (aenter o).ok = false
    ∧ execute false cmd = Except.error ExecError.connectionError
    ∧ execute true cmd = Except.ok [Ev.write cmd] := by
  refine ⟨?_, rfl, rfl⟩
  cases hc : o.connectOk <;> cases hs : o.subscribeOk <;> cases h0 : o.writeOk 0
    <;> simp [aenter, hc, hs, h0, h]

/-- Witness for `handshake_failure_never_ready` at the concrete failing
transport. -/
theorem handshake_failure_never_ready_witness :
    (aenter failing_oracle).ok = false
    ∧ execute false handshake = Except.error ExecError.connectionError
    ∧ execute true handshake = Except.ok [Ev.write handshake] :=
  handshake_failure_never_ready failing_oracle handshake rfl

/-- C7 counterexample: on a run whose second handshake write fails, session
startup raises, Python never calls `__aexit__`, and the full run's trace
contains the successful connect but no disconnect at all — even though the
connection is still live — so disconnect is not attempted on this error exit
path. -/
theorem startup_error_skips_disconnect :
    (aenter failing_oracle).ok = false
    ∧ (aenter failing_oracle).connected = true
    ∧ Ev.connect ∈ sessionRun failing_oracle [] true
    ∧ (sessionRun failing_oracle [] true).count Ev.disconnect = 0 := by
  refine ⟨rfl, rfl, ?_, rfl⟩
  simp [sessionRun, aenter, failing_oracle]

/-- C7 amended: when session startup completed, scope exit — normal or via an
error raised in the with-block's body — attempts disconnect exactly once if the
connection is live and does nothing if it is already disconnected; but when
startup itself fails, `__aexit__` never runs and no disconnect is attempted. -/
theorem aexit_disconnect_once (o : Oracle) (body : List Ev)
    (connected_at_exit : Bool) (hb : Ev.disconnect ∉ body) :
    ((aenter o).ok = true →
      (sessionRun o body connected_at_exit).count Ev.disconnect
        = if connected_at_exit then 1 else 0)
    ∧ ((aenter o).ok = false →
      (sessionRun o body connected_at_exit).count Ev.disconnect = 0)
    ∧ aexit false = [] := by
  have hbody : body.count Ev.disconnect = 0 := List.count_eq_zero.mpr hb
  refine ⟨?_, ?_, rfl⟩
  · intro h
    cases hc : o.connectOk <;> cases hs : o.subscribeOk <;> cases h0 : o.writeOk 0
      <;> cases h1 : o.writeOk 1
      <;> simp [aenter, hc, hs, h0, h1] at h ⊢
    cases connected_at_exit
      <;> simp [sessionRun, aenter, hc, hs, h0, h1, aexit, hbody, List.count_append]
  · intro h
    cases hc : o.connectOk <;> cases hs : o.subscribeOk <;> cases h0 : o.writeOk 0
      <;> cases h1 : o.writeOk 1
      <;> simp [aenter, hc, hs, h0, h1] at h ⊢
      <;> simp [sessionRun, aenter, hc, hs, h0, h1]

/-- Witness for `aexit_disconnect_once`: an all-success transport, an empty
body, a live connection at exit. -/
theorem aexit_disconnect_once_witness :
    (sessionRun ⟨true, true, fun _ => true⟩ [] true).count Ev.disconnect = 1 :=
  ((aexit_disconnect_once ⟨true, true, fun _ => true⟩ [] true
    (List.not_mem_nil _)).1 rfl).trans rfl

end Astromech

namespace Astromech

/-- When every listener succeeds on the buffer, dispatch calls them all, in
list order, and propagates no error. -/
theorem notification_callback_all_ok (ls : List Listener) (d : List Nat)
    (h : ∀ p ∈ ls, p.2 d = Except.ok ()) :
    notification_callback ls d = (ls.map Prod.fst, none) := by
  induction ls with
  | nil => rfl
  | cons p rest ih =>
    obtain ⟨i, f⟩ := p
    have hf : f d = Except.ok () := h _ (List.mem_cons_self _ _)
    have hr := ih fun q hq => h q (List.mem_cons_of_mem _ hq)
    simp [notification_callback, hf, hr]

/-- The first listener that raises stops the loop: everything before it was
called in order, it was called, and its error propagates uncaught. -/
theorem notification_callback_error (d : List Nat) (pre : List Listener)
    (i : Nat) (f : List Nat → Except Nat Unit) (post : List Listener) (e : Nat)
    (hpre : ∀ p ∈ pre, p.2 d = Except.ok ()) (hf : f d = Except.error e) :
    notification_callback (pre ++ (i, f) :: post) d
      = (pre.map Prod.fst ++ [i], some e) := by
  induction pre with
  | nil => simp [notification_callback, hf]
  | cons p rest ih =>
    obtain ⟨j, g⟩ := p
    have hg : g d = Except.ok () := hpre _ (List.mem_cons_self _ _)
    have hr := ih fun q hq => hpre q (List.mem_cons_of_mem _ hq)
    simp [notification_callback, hg, hr]

/-- C8: registration appends to the listener list, so listeners registered in
order A, B sit in that order; every inbound buffer is delivered synchronously
to every registered listener in that order when none raises; and a raising
listener's exception is not caught by the dispatch — it propagates, the
listeners before it having been called in order. -/
theorem notification_dispatch_order (ls : List Listener) (d : List Nat) :
    ((∀ p ∈ ls, p.2 d = Except.ok ()) →
      notification_callback ls d = (ls.map Prod.fst, none))
    ∧ (∀ pre i f post e, ls = pre ++ (i, f) :: post →
        (∀ p ∈ pre, p.2 d = Except.ok ()) → f d = Except.error e →
        notification_callback ls d = (pre.map Prod.fst ++ [i], some e))
    ∧ (∀ c, listen_for_notifications ls c = ls ++ [c]) := by
  refine ⟨fun h => notification_callback_all_ok ls d h, ?_, fun _ => rfl⟩
  intro pre i f post e hls hpre hf
  rw [hls]
  exact notification_callback_error d pre i f post e hpre hf

/-- Witness for `notification_dispatch_order`: two succeeding listeners
registered in order 0, 1 are both called, in that order; a single raising
listener is called and its error propagates. -/
theorem notification_dispatch_order_witness :
    notification_callback
        (listen_for_notifications
          (listen_for_notifications [] (0, fun _ => Except.ok ()))
          (1, fun _ => Except.ok ())) [0x0a]
      = ([0, 1], none)
    ∧ notification_callback [(2, fun _ => Except.error 7)] [0x0a]
      = ([2], some 7) :=
  ⟨(notification_dispatch_order
      (listen_for_notifications
        (listen_for_notifications [] (0, fun _ => Except.ok ()))
        (1, fun _ => Except.ok ())) [0x0a]).1
      (by
        intro p hp
        simp [listen_for_notifications] at hp
        rcases hp with h | h <;> rw [h]),
   (notification_dispatch_order [(2, fun _ => Except.error 7)] [0x0a]).2.1
      [] 2 (fun _ => Except.error 7) [] 7 rfl (by simp) rfl⟩

/-- Speed byte of a write event: frame byte 5, i.e. the second payload byte of
a framed motor command. -/
def speed_byte : Ev → Option Nat
  | Ev.write f => f.get? 5
  | _ => none

/-- C9: for every requested drift speed the slower wheel's speed byte is the
requested speed halved (Nat division: truncation toward zero), the omitted
speed defaults to `0xa0`, and at speed `0x80` the clockwise drift carries
left/right speed bytes `(0x80, 0x40)` while the counter-clockwise drift
carries `(0x40, 0x80)`. -/
theorem drift_speed_halving (t : Tuning) (duration_ms s : Nat)
    (ramp : Option Nat) :
    (drift_clockwise t duration_ms s ramp).map speed_byte
      = [some s, some (s / 2), none, some 0, some 0]
    ∧ (drift_counter_clockwise t duration_ms s ramp).map speed_byte
      = [some (s / 2), some s, none, some 0, some 0]
    ∧ drift_clockwise t duration_ms = drift_clockwise t duration_ms 0xa0
    ∧ drift_counter_clockwise t duration_ms
        = drift_counter_clockwise t duration_ms 0xa0
    ∧ (drift_clockwise t duration_ms 0x80 ramp).map speed_byte
      = [some 0x80, some 0x40, none, some 0, some 0]
    ∧ (drift_counter_clockwise t duration_ms 0x80 ramp).map speed_byte
      = [some 0x40, some 0x80, none, some 0, some 0] := by
  refine ⟨?_, ?_, rfl, rfl, ?_, ?_⟩ <;>
    simp [drift_clockwise, drift_counter_clockwise, move_wheels, stop,
      motor_command, command, int_to_bytes, speed_byte]

end Astromech
